import Mathlib

/-!
Shallow embedding of OpenSlide's JPEG decode core
(`src/openslide-decode-jpeg.c`).

The wrapped codec (libjpeg) is external to the repository; it is modelled
abstractly by a `JpegSource` describing, for one compressed stream, the
outcome of each codec entry point the wrapper calls (`jpeg_read_header`,
`jpeg_start_decompress`, output dimensions, `jpeg_read_scanlines` sample
bytes and failure points).  A codec fatal error invokes the installed
`error_exit` handler, which captures a message and performs a `longjmp`
back to the wrapper's `setjmp` site; this non-local transfer is modelled by
propagating an explicit "jump taken" outcome through the wrapper's control
flow.  The file-access collaborators (`_openslide_fopen`, `fseeko`,
`_openslide_io_error`) are likewise outside the repository and are modelled
by a `FileEnv`.
-/

/-- GLib-style structured error: an error domain plus a message.
Domain 0 models `OPENSLIDE_ERROR`, domain 1 models the file/IO domain
used by `_openslide_io_error`. -/
structure GErr where
  domain : Nat
  message : String
deriving Repr, DecidableEq

def OPENSLIDE_ERROR : Nat := 0

def G_FILE_ERROR : Nat := 1

/-- Return codes of `jpeg_read_header` (jpeglib.h). -/
def JPEG_SUSPENDED : Nat := 0

def JPEG_HEADER_OK : Nat := 1

def JPEG_HEADER_TABLES_ONLY : Nat := 2

/-- `struct openslide_jpeg_error_mgr` (decode-jpeg.c:35-39): the installed
`error_exit` handler (modelled as the flag "it is `my_error_exit`") and the
pending captured error `err`.  The `jmp_buf *env` target is modelled by the
explicit jump outcomes in the wrapper control flow below. -/
structure openslide_jpeg_error_mgr where
  error_exit_is_mine : Bool
  err : Option GErr
deriving Repr, DecidableEq

/-- GLib `g_set_error` on a `GError **` slot: sets the error only when the
slot is empty (GLib does not overwrite an already-set error). -/
def g_set_error (cur : Option GErr) (domain : Nat) (msg : String) : Option GErr :=
  match cur with
  | none => some ⟨domain, msg⟩
  | some e => some e

/-- `my_output_message` (decode-jpeg.c:58-67): format the codec's message
and capture it in `jerr->err` with domain `OPENSLIDE_ERROR`.  The formatted
text is supplied by the codec model. -/
def my_output_message (m : openslide_jpeg_error_mgr) (formatted : String) :
    openslide_jpeg_error_mgr :=
  { m with err := g_set_error m.err OPENSLIDE_ERROR formatted }

/-- `my_error_exit` (decode-jpeg.c:48-56): call `output_message` to capture
the error, then `longjmp(*(jerr->env), 1)`.  The jump itself is modelled at
each call site; this function yields the manager state at the moment of the
jump. -/
def my_error_exit (m : openslide_jpeg_error_mgr) (formatted : String) :
    openslide_jpeg_error_mgr :=
  my_output_message m formatted

/-- `my_emit_message` (decode-jpeg.c:69-74): a negative `msg_level` is a
codec warning, converted to a fatal error by invoking `error_exit` (which
captures the message and jumps: the `Bool` result records that the jump was
taken); non-negative levels are trace messages and are ignored. -/
def my_emit_message (m : openslide_jpeg_error_mgr) (msg_level : Int)
    (formatted : String) : openslide_jpeg_error_mgr × Bool :=
  if msg_level < 0 then
    (my_error_exit m formatted, true)
  else
    (m, false)

/-- `_openslide_jpeg_init_decompress` (decode-jpeg.c:83-94): allocate a
fresh error manager, install `my_error_exit` / `my_output_message` /
`my_emit_message`, with no pending error. -/
def _openslide_jpeg_init_decompress : openslide_jpeg_error_mgr :=
  { error_exit_is_mine := true, err := none }

/-- `_openslide_jpeg_propagate_error` (decode-jpeg.c:96-103): assert the
installed `error_exit` is `my_error_exit` (`none` models the `g_assert`
failure, which aborts), move the captured error out to the caller, and
reset the stored error to `NULL`. -/
def _openslide_jpeg_propagate_error (m : openslide_jpeg_error_mgr) :
    Option (Option GErr × openslide_jpeg_error_mgr) :=
  if m.error_exit_is_mine then
    some (m.err, { m with err := none })
  else
    none

/-- `_openslide_jpeg_destroy_decompress` (decode-jpeg.c:105-115): destroy
the codec state; when an error manager is installed, assert it is ours and
that no pending error remains.  The `Bool` result records whether the
`g_assert`s passed. -/
def _openslide_jpeg_destroy_decompress (e : Option openslide_jpeg_error_mgr) : Bool :=
  match e with
  | none => true
  | some m => m.error_exit_is_mine && m.err == none

/-- Outcome of `jpeg_read_header` for a given stream: a normal return code
(`JPEG_SUSPENDED` / `JPEG_HEADER_OK` / `JPEG_HEADER_TABLES_ONLY`), or a
codec fatal error (`error_exit` invoked with the given formatted message,
taking the longjmp path). -/
inductive HeaderRead where
  | code (c : Nat)
  | fatal (msg : String)
deriving Repr, DecidableEq

/-- Abstract model of one compressed stream as seen through the libjpeg
entry points used by the wrapper:
* `headerRead` — outcome of `jpeg_read_header(cinfo, TRUE)`;
* `outputWidth`, `outputHeight` — the codec's computed output dimensions
  (`jpeg_calc_output_dimensions` / `jpeg_start_decompress` both compute the
  same values for one stream; the output color space does not affect them);
* `startFail` — fatal error during `jpeg_start_decompress`, if any;
* `recOutbufHeight` — `cinfo->rec_outbuf_height`, the recommended scanline
  batch height (libjpeg guarantees it is positive);
* `sample g r c` — the `c`-th sample byte of decoded row `r` (grayscale
  rows have `outputWidth` samples, RGB rows `3 * outputWidth`); samples are
  `JSAMPLE`s, i.e. bytes, so they are reduced mod 256 where stored;
* `scanFailAt` — if `some (k, msg)`, the `jpeg_read_scanlines` call whose
  batch would cover row `k` fails fatally with message `msg`. -/
structure JpegSource where
  headerRead : HeaderRead
  outputWidth : Nat
  outputHeight : Nat
  startFail : Option String
  recOutbufHeight : Nat
  sample : Bool → Nat → Nat → Nat
  scanFailAt : Option (Nat × String)

/-- One decoded row copied to the destination (decode-jpeg.c:248-265):
grayscale copies the single-byte samples verbatim; RGB packs each pixel as
`0xFF000000 | R << 16 | G << 8 | B`. -/
def copyRow (s : JpegSource) (grayscale : Bool) (r : Nat) : List Nat :=
  if grayscale then
    (List.range s.outputWidth).map (fun i => s.sample true r i % 256)
  else
    (List.range s.outputWidth).map (fun i =>
      0xFF000000 |||
      ((s.sample false r (i * 3 + 0) % 256) <<< 16) |||
      ((s.sample false r (i * 3 + 1) % 256) <<< 8) |||
      (s.sample false r (i * 3 + 2) % 256))

/-- Whether the `jpeg_read_scanlines` batch starting at row `n` and reading
`toRead` rows hits the stream's fatal-failure row. -/
def batchFail (s : JpegSource) (n toRead : Nat) : Option String :=
  match s.scanFailAt with
  | some (k, m) => if n ≤ k ∧ k < n + toRead then some m else none
  | none => none

/-- The scanline loop of `jpeg_decode` (decode-jpeg.c:242-271): while
`output_scanline < output_height`, read a batch of up to
`rec_outbuf_height` rows and copy each produced row to the destination.
Returns the written values in order and, when a batch failed fatally, the
captured message (the failing batch writes nothing: the longjmp leaves the
copy loop for that batch unreached).  `fuel` bounds the number of loop
iterations; `none` models the loop never terminating, which happens exactly
when `rec_outbuf_height = 0` and rows remain (each iteration then reads 0
rows). -/
def scanLoop (s : JpegSource) (grayscale : Bool) : Nat → Nat → Option (List Nat × Option String)
  | n, 0 =>
    if n < s.outputHeight then none else some ([], none)
  | n, fuel + 1 =>
    if n < s.outputHeight then
      let toRead := min s.recOutbufHeight (s.outputHeight - n)
      match batchFail s n toRead with
      | some m => some ([], some m)
      | none =>
        match scanLoop s grayscale (n + toRead) fuel with
        | none => none
        | some (ws, f) =>
          some (((List.range toRead).map (fun j => copyRow s grayscale (n + j))).flatten ++ ws, f)
    else
      some ([], none)

/-- Observable outcome of `jpeg_get_dimensions` (decode-jpeg.c:117-158):
the returned flag, the error delivered through `GError **err`, the values
written to the out-parameters `w`/`h` (`none` = left unwritten), whether
`jpeg_calc_output_dimensions` was reached, whether the destroy-time
`g_assert`s passed, the pending error at destroy time, and whether the
propagate-time `g_assert` aborted. -/
structure ProbeResult where
  result : Bool
  err : Option GErr
  w : Option Int
  h : Option Int
  calcCalled : Bool
  destroyOk : Bool
  pendingAtDestroy : Option GErr
  aborted : Bool
deriving Repr, DecidableEq

/-- `jpeg_get_dimensions` (decode-jpeg.c:117-158): set up a session, read
the header, accept `JPEG_HEADER_OK` or `JPEG_HEADER_TABLES_ONLY` (any other
return code fails with "Couldn't read JPEG header"), compute the output
dimensions and write them to `w`/`h`; a codec fatal error longjmps to the
`setjmp` site, where the captured error is propagated.  All paths fall
through to `DONE`, which destroys the session. -/
def jpeg_get_dimensions (s : JpegSource) : ProbeResult :=
  let mgr := _openslide_jpeg_init_decompress
  match s.headerRead with
  | .fatal m =>
    let mgr1 := my_error_exit mgr m
    match _openslide_jpeg_propagate_error mgr1 with
    | some (e, mgr2) =>
      { result := false, err := e, w := none, h := none, calcCalled := false,
        destroyOk := _openslide_jpeg_destroy_decompress (some mgr2),
        pendingAtDestroy := mgr2.err, aborted := false }
    | none =>
      { result := false, err := none, w := none, h := none, calcCalled := false,
        destroyOk := false, pendingAtDestroy := none, aborted := true }
  | .code c =>
    if c ≠ JPEG_HEADER_OK ∧ c ≠ JPEG_HEADER_TABLES_ONLY then
      { result := false, err := some ⟨OPENSLIDE_ERROR, "Couldn\x27t read JPEG header"⟩,
        w := none, h := none, calcCalled := false,
        destroyOk := _openslide_jpeg_destroy_decompress (some mgr),
        pendingAtDestroy := mgr.err, aborted := false }
    else
      { result := true, err := none,
        w := some (s.outputWidth : Int), h := some (s.outputHeight : Int),
        calcCalled := true,
        destroyOk := _openslide_jpeg_destroy_decompress (some mgr),
        pendingAtDestroy := mgr.err, aborted := false }

/-- The dimension-mismatch message of decode-jpeg.c:225-228:
`"Dimensional mismatch reading JPEG, expected %dx%d, got %dx%d"`. -/
def mismatchMessage (w h width height : Int) : String :=
  "Dimensional mismatch reading JPEG, expected " ++
    (toString w ++ "x" ++ toString h) ++
    ", got " ++ (toString width ++ "x" ++ toString height)

/-- Observable outcome of `jpeg_decode` (decode-jpeg.c:186-288): returned
flag, delivered error, the sequence of values written to the destination
buffer (32-bit words in RGB mode, bytes in grayscale mode), whether
`jpeg_start_decompress` was reached (i.e. the header was accepted), the
destroy-time assertion outcome and pending error, the propagate-time
assertion outcome, and whether the scanline loop never terminates. -/
structure DecodeResult where
  result : Bool
  err : Option GErr
  writes : List Nat
  startCalled : Bool
  destroyOk : Bool
  pendingAtDestroy : Option GErr
  aborted : Bool
  hang : Bool
deriving Repr, DecidableEq

/-- `jpeg_decode` (decode-jpeg.c:186-288): set up a session, read and
check the header, set the output color space, start decompression, check
the codec's output dimensions against the caller-supplied `w`/`h` (on
mismatch fail with both pairs in the message and write nothing), then run
the scanline loop; a codec fatal error at any step longjmps to the `setjmp`
site, where the captured error is propagated.  All paths fall through to
`DONE`, which frees the staging buffers and destroys the session. -/
def jpeg_decode (s : JpegSource) (grayscale : Bool) (w h : Int) : DecodeResult :=
  let mgr := _openslide_jpeg_init_decompress
  match s.headerRead with
  | .fatal m =>
    let mgr1 := my_error_exit mgr m
    match _openslide_jpeg_propagate_error mgr1 with
    | some (e, mgr2) =>
      { result := false, err := e, writes := [], startCalled := false,
        destroyOk := _openslide_jpeg_destroy_decompress (some mgr2),
        pendingAtDestroy := mgr2.err, aborted := false, hang := false }
    | none =>
      { result := false, err := none, writes := [], startCalled := false,
        destroyOk := false, pendingAtDestroy := none, aborted := true, hang := false }
  | .code c =>
    if c ≠ JPEG_HEADER_OK ∧ c ≠ JPEG_HEADER_TABLES_ONLY then
      { result := false, err := some ⟨OPENSLIDE_ERROR, "Couldn\x27t read JPEG header"⟩,
        writes := [], startCalled := false,
        destroyOk := _openslide_jpeg_destroy_decompress (some mgr),
        pendingAtDestroy := mgr.err, aborted := false, hang := false }
    else
      match s.startFail with
      | some m =>
        let mgr1 := my_error_exit mgr m
        match _openslide_jpeg_propagate_error mgr1 with
        | some (e, mgr2) =>
          { result := false, err := e, writes := [], startCalled := true,
            destroyOk := _openslide_jpeg_destroy_decompress (some mgr2),
            pendingAtDestroy := mgr2.err, aborted := false, hang := false }
        | none =>
          { result := false, err := none, writes := [], startCalled := true,
            destroyOk := false, pendingAtDestroy := none, aborted := true, hang := false }
      | none =>
        if w ≠ (s.outputWidth : Int) ∨ h ≠ (s.outputHeight : Int) then
          { result := false,
            err := some ⟨OPENSLIDE_ERROR,
                         mismatchMessage w h (s.outputWidth : Int) (s.outputHeight : Int)⟩,
            writes := [], startCalled := true,
            destroyOk := _openslide_jpeg_destroy_decompress (some mgr),
            pendingAtDestroy := mgr.err, aborted := false, hang := false }
        else
          match scanLoop s grayscale 0 s.outputHeight with
          | none =>
            { result := false, err := none, writes := [], startCalled := true,
              destroyOk := false, pendingAtDestroy := none, aborted := false, hang := true }
          | some (ws, some m) =>
            let mgr1 := my_error_exit mgr m
            match _openslide_jpeg_propagate_error mgr1 with
            | some (e, mgr2) =>
              { result := false, err := e, writes := ws, startCalled := true,
                destroyOk := _openslide_jpeg_destroy_decompress (some mgr2),
                pendingAtDestroy := mgr2.err, aborted := false, hang := false }
            | none =>
              { result := false, err := none, writes := ws, startCalled := true,
                destroyOk := false, pendingAtDestroy := none, aborted := true, hang := false }
          | some (ws, none) =>
            { result := true, err := none, writes := ws, startCalled := true,
              destroyOk := _openslide_jpeg_destroy_decompress (some mgr),
              pendingAtDestroy := mgr.err, aborted := false, hang := false }

/-- Model of the file-access collaborators (outside this repository): can a
path be opened, the error `_openslide_fopen` delivers when opening fails,
whether `fseeko(f, offset, SEEK_SET)` succeeds, and the compressed stream
the codec sees at a given path and offset (offset 0 means the freshly
opened handle's current position: start of file). -/
structure FileEnv where
  openOk : String → Bool
  openErr : String → GErr
  seekOk : String → Int → Bool
  sourceAt : String → Int → JpegSource

/-- The error raised by `_openslide_io_error(err, "Cannot seek to offset")`
(decode-jpeg.c:169 and :302). -/
def seekError : GErr := ⟨G_FILE_ERROR, "Cannot seek to offset"⟩

/-- Observable outcome of `_openslide_jpeg_read_dimensions`: returned flag,
delivered error, values written to `w`/`h`, whether `fseeko` was invoked at
all, whether it was invoked and failed, and the inner `jpeg_get_dimensions`
call when it was reached (`none` = the codec was never entered). -/
structure ReadDimsResult where
  result : Bool
  err : Option GErr
  w : Option Int
  h : Option Int
  seekAttempted : Bool
  seekFailed : Bool
  probe : Option ProbeResult
deriving Repr, DecidableEq

/-- `_openslide_jpeg_read_dimensions` (decode-jpeg.c:160-178): open the
file (failure propagates the open error), seek only when `offset` is
nonzero (`if (offset && fseeko(...) == -1)`), raising the
"Cannot seek to offset" IO error when the seek fails, then probe the
stream's dimensions. -/
def _openslide_jpeg_read_dimensions (env : FileEnv) (filename : String)
    (offset : Int) : ReadDimsResult :=
  if env.openOk filename then
    if offset ≠ 0 ∧ env.seekOk filename offset = false then
      { result := false, err := some seekError, w := none, h := none,
        seekAttempted := true, seekFailed := true, probe := none }
    else
      let p := jpeg_get_dimensions (env.sourceAt filename offset)
      { result := p.result, err := p.err, w := p.w, h := p.h,
        seekAttempted := offset != 0, seekFailed := false, probe := some p }
  else
    { result := false, err := some (env.openErr filename), w := none, h := none,
      seekAttempted := false, seekFailed := false, probe := none }

/-- `_openslide_jpeg_decode_buffer_dimensions` (decode-jpeg.c:180-184):
probe an in-memory buffer, no file access involved. -/
def _openslide_jpeg_decode_buffer_dimensions (s : JpegSource) : ProbeResult :=
  jpeg_get_dimensions s

/-- Observable outcome of `_openslide_jpeg_read`: returned flag, delivered
error, the seek observables, and the inner `jpeg_decode` call when it was
reached (`none` = the codec was never entered). -/
structure FileReadResult where
  result : Bool
  err : Option GErr
  seekAttempted : Bool
  seekFailed : Bool
  dec : Option DecodeResult
deriving Repr, DecidableEq

/-- `_openslide_jpeg_read` (decode-jpeg.c:290-311): open the file, seek
only when `offset` is nonzero (failed seek raises
"Cannot seek to offset"), then decode in RGB (non-grayscale) mode. -/
def _openslide_jpeg_read (env : FileEnv) (filename : String) (offset : Int)
    (w h : Int) : FileReadResult :=
  if env.openOk filename then
    if offset ≠ 0 ∧ env.seekOk filename offset = false then
      { result := false, err := some seekError,
        seekAttempted := true, seekFailed := true, dec := none }
    else
      let d := jpeg_decode (env.sourceAt filename offset) false w h
      { result := d.result, err := d.err,
        seekAttempted := offset != 0, seekFailed := false, dec := some d }
  else
    { result := false, err := some (env.openErr filename),
      seekAttempted := false, seekFailed := false, dec := none }

/-- `_openslide_jpeg_decode_buffer` (decode-jpeg.c:313-320): decode an
in-memory buffer in RGB mode. -/
def _openslide_jpeg_decode_buffer (s : JpegSource) (w h : Int) : DecodeResult :=
  jpeg_decode s false w h

/-- `_openslide_jpeg_decode_buffer_gray` (decode-jpeg.c:322-329): decode an
in-memory buffer in grayscale mode. -/
def _openslide_jpeg_decode_buffer_gray (s : JpegSource) (w h : Int) : DecodeResult :=
  jpeg_decode s true w h

/-- `struct associated_image` (decode-jpeg.c:41-45) together with the
`_openslide_associated_image` base fields used here: probed width/height,
and the stored source descriptor (filename + offset). -/
structure associated_image where
  w : Int
  h : Int
  filename : String
  offset : Int
deriving Repr, DecidableEq

/-- `g_hash_table_insert` on the name-keyed registry: inserting under an
existing key replaces the previous entry (last-write-wins). -/
def g_hash_table_insert (t : List (String × associated_image)) (k : String)
    (v : associated_image) : List (String × associated_image) :=
  (k, v) :: t.filter (fun p => p.1 != k)

/-- `g_hash_table_lookup` on the registry model. -/
def g_hash_table_lookup (t : List (String × associated_image)) (k : String) :
    Option associated_image :=
  (t.find? (fun p => p.1 == k)).map (fun p => p.2)

/-- GLib `g_prefix_error`: prefix the message of a pending error, if one is
set. -/
def g_prefix_error (e : Option GErr) (pre : String) : Option GErr :=
  e.map (fun g => { g with message := pre ++ g.message })

/-- Observable outcome of `_openslide_jpeg_add_associated_image`: returned
flag, delivered error, and the registry contents afterwards. -/
structure AddImageResult where
  result : Bool
  err : Option GErr
  table : List (String × associated_image)
deriving Repr, DecidableEq

/-- `_openslide_jpeg_add_associated_image` (decode-jpeg.c:354-375): probe
the source's dimensions eagerly; on failure prefix the probe's error with
`"Can't read <name> associated image: "` and register nothing; on success
insert an entry under `name` carrying the probed width/height and the given
filename and offset. -/
def _openslide_jpeg_add_associated_image (env : FileEnv)
    (table : List (String × associated_image)) (name filename : String)
    (offset : Int) : AddImageResult :=
  let d := _openslide_jpeg_read_dimensions env filename offset
  if d.result then
    match d.w, d.h with
    | some w, some h =>
      { result := true, err := none,
        table := g_hash_table_insert table name ⟨w, h, filename, offset⟩ }
    | _, _ =>
      { result := true, err := none, table := table }
  else
    { result := false,
      err := g_prefix_error d.err ("Can\x27t read " ++ name ++ " associated image: "),
      table := table }

/-- `sub` occurs as a contiguous substring of `s`. -/
def strContains (s sub : String) : Prop := List.IsInfix sub.data s.data

/-- A stream on which every libjpeg step the wrapper performs succeeds:
the header reads as a normal image header, decompression starts, no
scanline batch fails, and the recommended batch height is positive (as
libjpeg guarantees). -/
def ValidSource (s : JpegSource) : Prop :=
  s.headerRead = .code JPEG_HEADER_OK ∧ s.startFail = none ∧
  s.scanFailAt = none ∧ 1 ≤ s.recOutbufHeight

/-- A concrete 2x2 solid-red baseline JPEG stream: every pixel's RGB
samples are (255, 0, 0). -/
def demoSource : JpegSource :=
  { headerRead := .code JPEG_HEADER_OK, outputWidth := 2, outputHeight := 2,
    startFail := none, recOutbufHeight := 1,
    sample := fun _ _ c => if c % 3 == 0 then 255 else 0,
    scanFailAt := none }

/-- A concrete stream whose header read returns `JPEG_SUSPENDED`, the one
`jpeg_read_header` return code other than the two accepted ones. -/
def demoBadSource : JpegSource :=
  { headerRead := .code JPEG_SUSPENDED, outputWidth := 2, outputHeight := 2,
    startFail := none, recOutbufHeight := 1,
    sample := fun _ _ _ => 0,
    scanFailAt := none }

/-- A concrete file environment: every path opens, every seek fails, and
every stream is `demoSource`. -/
def demoEnv : FileEnv :=
  { openOk := fun _ => true,
    openErr := fun _ => ⟨G_FILE_ERROR, "Couldn\x27t open file"⟩,
    seekOk := fun _ _ => false,
    sourceAt := fun _ _ => demoSource }

/-- A concrete file environment in which every operation succeeds. -/
def demoEnvOk : FileEnv :=
  { openOk := fun _ => true,
    openErr := fun _ => ⟨G_FILE_ERROR, "Couldn\x27t open file"⟩,
    seekOk := fun _ _ => true,
    sourceAt := fun _ _ => demoSource }

theorem probe_fatal (s : JpegSource) (m : String) (h : s.headerRead = .fatal m) :
    jpeg_get_dimensions s =
      { result := false, err := some ⟨OPENSLIDE_ERROR, m⟩, w := none, h := none,
        calcCalled := false, destroyOk := true, pendingAtDestroy := none,
        aborted := false } := by
  simp [jpeg_get_dimensions, h, my_error_exit, my_output_message, g_set_error,
        _openslide_jpeg_init_decompress, _openslide_jpeg_propagate_error,
        _openslide_jpeg_destroy_decompress]

theorem probe_badHeader (s : JpegSource) (c : Nat) (h : s.headerRead = .code c)
    (hc : c ≠ JPEG_HEADER_OK ∧ c ≠ JPEG_HEADER_TABLES_ONLY) :
    jpeg_get_dimensions s =
      { result := false, err := some ⟨OPENSLIDE_ERROR, "Couldn\x27t read JPEG header"⟩,
        w := none, h := none, calcCalled := false, destroyOk := true,
        pendingAtDestroy := none, aborted := false } := by
  simp [jpeg_get_dimensions, h, hc, _openslide_jpeg_init_decompress,
        _openslide_jpeg_destroy_decompress]

theorem probe_goodHeader (s : JpegSource) (c : Nat) (h : s.headerRead = .code c)
    (hc : c = JPEG_HEADER_OK ∨ c = JPEG_HEADER_TABLES_ONLY) :
    jpeg_get_dimensions s =
      { result := true, err := none, w := some (s.outputWidth : Int),
        h := some (s.outputHeight : Int), calcCalled := true, destroyOk := true,
        pendingAtDestroy := none, aborted := false } := by
  have hc' : ¬(c ≠ JPEG_HEADER_OK ∧ c ≠ JPEG_HEADER_TABLES_ONLY) := by
    rcases hc with hc | hc <;> simp [hc]
  simp [jpeg_get_dimensions, h, hc', _openslide_jpeg_init_decompress,
        _openslide_jpeg_destroy_decompress]

theorem decode_fatal (s : JpegSource) (g : Bool) (w h : Int) (m : String)
    (hh : s.headerRead = .fatal m) :
    jpeg_decode s g w h =
      { result := false, err := some ⟨OPENSLIDE_ERROR, m⟩, writes := [],
        startCalled := false, destroyOk := true, pendingAtDestroy := none,
        aborted := false, hang := false } := by
  simp [jpeg_decode, hh, my_error_exit, my_output_message, g_set_error,
        _openslide_jpeg_init_decompress, _openslide_jpeg_propagate_error,
        _openslide_jpeg_destroy_decompress]

theorem decode_badHeader (s : JpegSource) (g : Bool) (w h : Int) (c : Nat)
    (hh : s.headerRead = .code c)
    (hc : c ≠ JPEG_HEADER_OK ∧ c ≠ JPEG_HEADER_TABLES_ONLY) :
    jpeg_decode s g w h =
      { result := false, err := some ⟨OPENSLIDE_ERROR, "Couldn\x27t read JPEG header"⟩,
        writes := [], startCalled := false, destroyOk := true,
        pendingAtDestroy := none, aborted := false, hang := false } := by
  simp [jpeg_decode, hh, hc, _openslide_jpeg_init_decompress,
        _openslide_jpeg_destroy_decompress]

theorem decode_startFail (s : JpegSource) (g : Bool) (w h : Int) (c : Nat) (m : String)
    (hh : s.headerRead = .code c)
    (hc : c = JPEG_HEADER_OK ∨ c = JPEG_HEADER_TABLES_ONLY)
    (hs : s.startFail = some m) :
    jpeg_decode s g w h =
      { result := false, err := some ⟨OPENSLIDE_ERROR, m⟩, writes := [],
        startCalled := true, destroyOk := true, pendingAtDestroy := none,
        aborted := false, hang := false } := by
  have hc' : ¬(c ≠ JPEG_HEADER_OK ∧ c ≠ JPEG_HEADER_TABLES_ONLY) := by
    rcases hc with hc | hc <;> simp [hc]
  simp [jpeg_decode, hh, hc', hs, my_error_exit, my_output_message, g_set_error,
        _openslide_jpeg_init_decompress, _openslide_jpeg_propagate_error,
        _openslide_jpeg_destroy_decompress]

theorem decode_mismatch (s : JpegSource) (g : Bool) (w h : Int) (c : Nat)
    (hh : s.headerRead = .code c)
    (hc : c = JPEG_HEADER_OK ∨ c = JPEG_HEADER_TABLES_ONLY)
    (hs : s.startFail = none)
    (hmm : w ≠ (s.outputWidth : Int) ∨ h ≠ (s.outputHeight : Int)) :
    jpeg_decode s g w h =
      { result := false,
        err := some ⟨OPENSLIDE_ERROR,
                     mismatchMessage w h (s.outputWidth : Int) (s.outputHeight : Int)⟩,
        writes := [], startCalled := true, destroyOk := true,
        pendingAtDestroy := none, aborted := false, hang := false } := by
  have hc' : ¬(c ≠ JPEG_HEADER_OK ∧ c ≠ JPEG_HEADER_TABLES_ONLY) := by
    rcases hc with hc | hc <;> simp [hc]
  simp [jpeg_decode, hh, hc', hs, hmm, _openslide_jpeg_init_decompress,
        _openslide_jpeg_destroy_decompress]

theorem decode_scanFail (s : JpegSource) (g : Bool) (c : Nat) (ws : List Nat) (m : String)
    (hh : s.headerRead = .code c)
    (hc : c = JPEG_HEADER_OK ∨ c = JPEG_HEADER_TABLES_ONLY)
    (hs : s.startFail = none)
    (hsl : scanLoop s g 0 s.outputHeight = some (ws, some m)) :
    jpeg_decode s g (s.outputWidth : Int) (s.outputHeight : Int) =
      { result := false, err := some ⟨OPENSLIDE_ERROR, m⟩, writes := ws,
        startCalled := true, destroyOk := true, pendingAtDestroy := none,
        aborted := false, hang := false } := by
  have hc' : ¬(c ≠ JPEG_HEADER_OK ∧ c ≠ JPEG_HEADER_TABLES_ONLY) := by
    rcases hc with hc | hc <;> simp [hc]
  simp [jpeg_decode, hh, hc', hs, hsl, my_error_exit, my_output_message, g_set_error,
        _openslide_jpeg_init_decompress, _openslide_jpeg_propagate_error,
        _openslide_jpeg_destroy_decompress]

theorem decode_scanOk (s : JpegSource) (g : Bool) (c : Nat) (ws : List Nat)
    (hh : s.headerRead = .code c)
    (hc : c = JPEG_HEADER_OK ∨ c = JPEG_HEADER_TABLES_ONLY)
    (hs : s.startFail = none)
    (hsl : scanLoop s g 0 s.outputHeight = some (ws, none)) :
    jpeg_decode s g (s.outputWidth : Int) (s.outputHeight : Int) =
      { result := true, err := none, writes := ws, startCalled := true,
        destroyOk := true, pendingAtDestroy := none, aborted := false,
        hang := false } := by
  have hc' : ¬(c ≠ JPEG_HEADER_OK ∧ c ≠ JPEG_HEADER_TABLES_ONLY) := by
    rcases hc with hc | hc <;> simp [hc]
  simp [jpeg_decode, hh, hc', hs, hsl, _openslide_jpeg_init_decompress,
        _openslide_jpeg_destroy_decompress]

theorem decode_hang (s : JpegSource) (g : Bool) (c : Nat)
    (hh : s.headerRead = .code c)
    (hc : c = JPEG_HEADER_OK ∨ c = JPEG_HEADER_TABLES_ONLY)
    (hs : s.startFail = none)
    (hsl : scanLoop s g 0 s.outputHeight = none) :
    jpeg_decode s g (s.outputWidth : Int) (s.outputHeight : Int) =
      { result := false, err := none, writes := [], startCalled := true,
        destroyOk := false, pendingAtDestroy := none, aborted := false,
        hang := true } := by
  have hc' : ¬(c ≠ JPEG_HEADER_OK ∧ c ≠ JPEG_HEADER_TABLES_ONLY) := by
    rcases hc with hc | hc <;> simp [hc]
  simp [jpeg_decode, hh, hc', hs, hsl, _openslide_jpeg_init_decompress,
        _openslide_jpeg_destroy_decompress]

theorem or_low_eq_add (a b k : Nat) (hb : b < 2 ^ k) :
    (2 ^ k * a) ||| b = 2 ^ k * a + b :=
  (Nat.mul_add_lt_is_or hb a).symm

theorem pack_eq_add (r g b : Nat) (hr : r < 256) (hg : g < 256) (hb : b < 256) :
    0xFF000000 ||| (r <<< 16) ||| (g <<< 8) ||| b =
      0xFF000000 + (r * 65536 + g * 256 + b) := by
  have h1 : (g <<< 8) ||| b = g * 256 + b := by
    rw [Nat.shiftLeft_eq, Nat.mul_comm, or_low_eq_add g b 8 (by omega)]
  have h2 : (r <<< 16) ||| (g * 256 + b) = r * 65536 + (g * 256 + b) := by
    rw [Nat.shiftLeft_eq, Nat.mul_comm, or_low_eq_add r (g * 256 + b) 16 (by omega)]
  have h3 : (0xFF000000 : Nat) ||| (r * 65536 + (g * 256 + b)) =
      0xFF000000 + (r * 65536 + (g * 256 + b)) := by
    have : (0xFF000000 : Nat) = 2 ^ 24 * 255 := by norm_num
    rw [this, or_low_eq_add 255 (r * 65536 + (g * 256 + b)) 24 (by omega)]
  rw [Nat.or_assoc, Nat.or_assoc, h1, h2, h3]
  ring

theorem pack_topByte (r g b : Nat) (hr : r < 256) (hg : g < 256) (hb : b < 256) :
    (0xFF000000 ||| (r <<< 16) ||| (g <<< 8) ||| b) >>> 24 = 0xFF := by
  rw [pack_eq_add r g b hr hg hb, Nat.shiftRight_eq_div_pow]
  have : (2 : Nat) ^ 24 = 16777216 := by norm_num
  rw [this]
  omega

theorem copyRow_rgb_mem (s : JpegSource) (r : Nat) (x : Nat)
    (hx : x ∈ copyRow s false r) :
    ∃ i, x = 0xFF000000 |||
      ((s.sample false r (i * 3 + 0) % 256) <<< 16) |||
      ((s.sample false r (i * 3 + 1) % 256) <<< 8) |||
      (s.sample false r (i * 3 + 2) % 256) := by
  simp only [copyRow, if_neg (by simp : ¬(false = true)), List.mem_map,
             List.mem_range] at hx
  obtain ⟨i, _, hi⟩ := hx
  exact ⟨i, hi.symm⟩

theorem scanLoop_mem (s : JpegSource) (g : Bool) :
    ∀ fuel n ws f, scanLoop s g n fuel = some (ws, f) →
      ∀ x ∈ ws, ∃ r, x ∈ copyRow s g r := by
  intro fuel
  induction fuel with
  | zero =>
    intro n ws f hsl x hx
    simp only [scanLoop] at hsl
    split at hsl
    · simp at hsl
    · rw [Option.some.injEq, Prod.mk.injEq] at hsl
      obtain ⟨h1, _⟩ := hsl
      subst h1
      simp at hx
  | succ fuel ih =>
    intro n ws f hsl x hx
    simp only [scanLoop] at hsl
    split at hsl
    · split at hsl
      · rw [Option.some.injEq, Prod.mk.injEq] at hsl
        obtain ⟨h1, _⟩ := hsl
        subst h1
        simp at hx
      · split at hsl
        · simp at hsl
        · rename_i ws2 f2 heq
          rw [Option.some.injEq, Prod.mk.injEq] at hsl
          obtain ⟨h1, _⟩ := hsl
          subst h1
          rw [List.mem_append] at hx
          rcases hx with hx | hx
          · rw [List.mem_flatten] at hx
            obtain ⟨l, hl, hxl⟩ := hx
            rw [List.mem_map] at hl
            obtain ⟨j, _, hj⟩ := hl
            exact ⟨_, hj ▸ hxl⟩
          · exact ih _ _ _ heq x hx
    · rw [Option.some.injEq, Prod.mk.injEq] at hsl
      obtain ⟨h1, _⟩ := hsl
      subst h1
      simp at hx

theorem scanLoop_success (s : JpegSource) (g : Bool)
    (hrec : 1 ≤ s.recOutbufHeight) (hnf : s.scanFailAt = none) :
    ∀ fuel n, s.outputHeight - n ≤ fuel →
      ∃ ws, scanLoop s g n fuel = some (ws, none) := by
  intro fuel
  induction fuel with
  | zero =>
    intro n hle
    refine ⟨[], ?_⟩
    simp only [scanLoop]
    rw [if_neg (by omega)]
  | succ fuel ih =>
    intro n hle
    by_cases hn : n < s.outputHeight
    · have hbf : batchFail s n (min s.recOutbufHeight (s.outputHeight - n)) = none := by
        simp [batchFail, hnf]
      obtain ⟨ws, hws⟩ :=
        ih (n + min s.recOutbufHeight (s.outputHeight - n)) (by omega)
      refine ⟨((List.range (min s.recOutbufHeight (s.outputHeight - n))).map
                (fun j => copyRow s g (n + j))).flatten ++ ws, ?_⟩
      simp only [scanLoop]
      rw [if_pos hn]
      simp only [hbf, hws]
    · refine ⟨[], ?_⟩
      simp only [scanLoop]
      rw [if_neg hn]

theorem decode_writes_mem (s : JpegSource) (g : Bool) (w h : Int) (x : Nat)
    (hx : x ∈ (jpeg_decode s g w h).writes) : ∃ r, x ∈ copyRow s g r := by
  cases hh : s.headerRead with
  | fatal m =>
    rw [decode_fatal s g w h m hh] at hx
    simp at hx
  | code c =>
    by_cases hc : c = JPEG_HEADER_OK ∨ c = JPEG_HEADER_TABLES_ONLY
    · cases hs : s.startFail with
      | some m =>
        rw [decode_startFail s g w h c m hh hc hs] at hx
        simp at hx
      | none =>
        by_cases hmm : w ≠ (s.outputWidth : Int) ∨ h ≠ (s.outputHeight : Int)
        · rw [decode_mismatch s g w h c hh hc hs hmm] at hx
          simp at hx
        · push_neg at hmm
          obtain ⟨hw, hh2⟩ := hmm
          subst hw
          subst hh2
          cases hsl : scanLoop s g 0 s.outputHeight with
          | none =>
            rw [decode_hang s g c hh hc hs hsl] at hx
            simp at hx
          | some p =>
            obtain ⟨ws, f⟩ := p
            cases f with
            | none =>
              rw [decode_scanOk s g c ws hh hc hs hsl] at hx
              exact scanLoop_mem s g s.outputHeight 0 ws none hsl x hx
            | some m =>
              rw [decode_scanFail s g c ws m hh hc hs hsl] at hx
              exact scanLoop_mem s g s.outputHeight 0 ws (some m) hsl x hx
    · have hc' : c ≠ JPEG_HEADER_OK ∧ c ≠ JPEG_HEADER_TABLES_ONLY := by
        push_neg at hc
        exact hc
      rw [decode_badHeader s g w h c hh hc'] at hx
      simp at hx

theorem mismatch_contains_pairs (w h W H : Int) :
    strContains (mismatchMessage w h W H) (toString w ++ "x" ++ toString h) ∧
    strContains (mismatchMessage w h W H) (toString W ++ "x" ++ toString H) := by
  unfold strContains mismatchMessage
  constructor
  · exact ⟨"Dimensional mismatch reading JPEG, expected ".data,
           (", got " ++ (toString W ++ "x" ++ toString H)).data,
           by simp⟩
  · exact ⟨("Dimensional mismatch reading JPEG, expected " ++
            (toString w ++ "x" ++ toString h) ++ ", got ").data, [],
           by simp⟩

theorem probe_cases (s : JpegSource) :
    ((jpeg_get_dimensions s).result = true ∧
     jpeg_get_dimensions s =
       { result := true, err := none, w := some (s.outputWidth : Int),
         h := some (s.outputHeight : Int), calcCalled := true, destroyOk := true,
         pendingAtDestroy := none, aborted := false }) ∨
    ((jpeg_get_dimensions s).result = false ∧ ∃ e,
     jpeg_get_dimensions s =
       { result := false, err := some e, w := none, h := none,
         calcCalled := false, destroyOk := true, pendingAtDestroy := none,
         aborted := false }) := by
  cases hh : s.headerRead with
  | fatal m =>
    right
    rw [probe_fatal s m hh]
    exact ⟨rfl, ⟨OPENSLIDE_ERROR, m⟩, rfl⟩
  | code c =>
    by_cases hc : c = JPEG_HEADER_OK ∨ c = JPEG_HEADER_TABLES_ONLY
    · left
      rw [probe_goodHeader s c hh hc]
      exact ⟨rfl, rfl⟩
    · right
      push_neg at hc
      rw [probe_badHeader s c hh hc]
      exact ⟨rfl, ⟨OPENSLIDE_ERROR, "Couldn\x27t read JPEG header"⟩, rfl⟩

theorem probe_err_domain (s : JpegSource) (e : GErr)
    (he : (jpeg_get_dimensions s).err = some e) : e.domain = OPENSLIDE_ERROR := by
  rcases probe_cases s with ⟨_, hp⟩ | ⟨_, e2, hp⟩
  · rw [hp] at he
    simp at he
  · rw [hp] at he
    obtain rfl := Option.some.inj he
    cases hh : s.headerRead with
    | fatal m =>
      rw [probe_fatal s m hh] at hp
      have := congrArg ProbeResult.err hp
      simp at this
      rw [← this]
    | code c =>
      by_cases hc : c = JPEG_HEADER_OK ∨ c = JPEG_HEADER_TABLES_ONLY
      · rw [probe_goodHeader s c hh hc] at hp
        have := congrArg ProbeResult.err hp
        simp at this
      · push_neg at hc
        rw [probe_badHeader s c hh hc] at hp
        have := congrArg ProbeResult.err hp
        simp at this
        rw [← this]

theorem decode_err_domain (s : JpegSource) (g : Bool) (w h : Int) (e : GErr)
    (he : (jpeg_decode s g w h).err = some e) : e.domain = OPENSLIDE_ERROR := by
  cases hh : s.headerRead with
  | fatal m =>
    rw [decode_fatal s g w h m hh] at he
    obtain rfl := Option.some.inj he
    rfl
  | code c =>
    by_cases hc : c = JPEG_HEADER_OK ∨ c = JPEG_HEADER_TABLES_ONLY
    · cases hs : s.startFail with
      | some m =>
        rw [decode_startFail s g w h c m hh hc hs] at he
        obtain rfl := Option.some.inj he
        rfl
      | none =>
        by_cases hmm : w ≠ (s.outputWidth : Int) ∨ h ≠ (s.outputHeight : Int)
        · rw [decode_mismatch s g w h c hh hc hs hmm] at he
          obtain rfl := Option.some.inj he
          rfl
        · push_neg at hmm
          obtain ⟨hw, hh2⟩ := hmm
          subst hw
          subst hh2
          cases hsl : scanLoop s g 0 s.outputHeight with
          | none =>
            rw [decode_hang s g c hh hc hs hsl] at he
            simp at he
          | some p =>
            obtain ⟨ws, f⟩ := p
            cases f with
            | none =>
              rw [decode_scanOk s g c ws hh hc hs hsl] at he
              simp at he
            | some m =>
              rw [decode_scanFail s g c ws m hh hc hs hsl] at he
              obtain rfl := Option.some.inj he
              rfl
    · push_neg at hc
      rw [decode_badHeader s g w h c hh hc] at he
      obtain rfl := Option.some.inj he
      rfl

theorem decode_clean (s : JpegSource) (g : Bool) (w h : Int)
    (hng : (jpeg_decode s g w h).hang = false) :
    (jpeg_decode s g w h).destroyOk = true ∧
    (jpeg_decode s g w h).pendingAtDestroy = none ∧
    (jpeg_decode s g w h).aborted = false := by
  cases hh : s.headerRead with
  | fatal m =>
    rw [decode_fatal s g w h m hh]
    exact ⟨rfl, rfl, rfl⟩
  | code c =>
    by_cases hc : c = JPEG_HEADER_OK ∨ c = JPEG_HEADER_TABLES_ONLY
    · cases hs : s.startFail with
      | some m =>
        rw [decode_startFail s g w h c m hh hc hs]
        exact ⟨rfl, rfl, rfl⟩
      | none =>
        by_cases hmm : w ≠ (s.outputWidth : Int) ∨ h ≠ (s.outputHeight : Int)
        · rw [decode_mismatch s g w h c hh hc hs hmm]
          exact ⟨rfl, rfl, rfl⟩
        · push_neg at hmm
          obtain ⟨hw, hh2⟩ := hmm
          subst hw
          subst hh2
          cases hsl : scanLoop s g 0 s.outputHeight with
          | none =>
            rw [decode_hang s g c hh hc hs hsl] at hng
            simp at hng
          | some p =>
            obtain ⟨ws, f⟩ := p
            cases f with
            | none =>
              rw [decode_scanOk s g c ws hh hc hs hsl]
              exact ⟨rfl, rfl, rfl⟩
            | some m =>
              rw [decode_scanFail s g c ws m hh hc hs hsl]
              exact ⟨rfl, rfl, rfl⟩
    · push_neg at hc
      rw [decode_badHeader s g w h c hh hc]
      exact ⟨rfl, rfl, rfl⟩

theorem read_dims_openFail (env : FileEnv) (filename : String) (offset : Int)
    (ho : env.openOk filename = false) :
    _openslide_jpeg_read_dimensions env filename offset =
      { result := false, err := some (env.openErr filename), w := none, h := none,
        seekAttempted := false, seekFailed := false, probe := none } := by
  simp [_openslide_jpeg_read_dimensions, ho]

theorem read_dims_seekFail (env : FileEnv) (filename : String) (offset : Int)
    (ho : env.openOk filename = true) (hoff : offset ≠ 0)
    (hs : env.seekOk filename offset = false) :
    _openslide_jpeg_read_dimensions env filename offset =
      { result := false, err := some seekError, w := none, h := none,
        seekAttempted := true, seekFailed := true, probe := none } := by
  simp [_openslide_jpeg_read_dimensions, ho, hoff, hs]

theorem read_dims_probe (env : FileEnv) (filename : String) (offset : Int)
    (ho : env.openOk filename = true)
    (hs : offset = 0 ∨ env.seekOk filename offset = true) :
    _openslide_jpeg_read_dimensions env filename offset =
      { result := (jpeg_get_dimensions (env.sourceAt filename offset)).result,
        err := (jpeg_get_dimensions (env.sourceAt filename offset)).err,
        w := (jpeg_get_dimensions (env.sourceAt filename offset)).w,
        h := (jpeg_get_dimensions (env.sourceAt filename offset)).h,
        seekAttempted := offset != 0, seekFailed := false,
        probe := some (jpeg_get_dimensions (env.sourceAt filename offset)) } := by
  have hcond : ¬(offset ≠ 0 ∧ env.seekOk filename offset = false) := by
    rcases hs with hs | hs <;> simp [hs]
  simp [_openslide_jpeg_read_dimensions, ho, hcond]

theorem file_read_openFail (env : FileEnv) (filename : String) (offset : Int)
    (w h : Int) (ho : env.openOk filename = false) :
    _openslide_jpeg_read env filename offset w h =
      { result := false, err := some (env.openErr filename),
        seekAttempted := false, seekFailed := false, dec := none } := by
  simp [_openslide_jpeg_read, ho]

theorem file_read_seekFail (env : FileEnv) (filename : String) (offset : Int)
    (w h : Int) (ho : env.openOk filename = true) (hoff : offset ≠ 0)
    (hs : env.seekOk filename offset = false) :
    _openslide_jpeg_read env filename offset w h =
      { result := false, err := some seekError,
        seekAttempted := true, seekFailed := true, dec := none } := by
  simp [_openslide_jpeg_read, ho, hoff, hs]

theorem file_read_decode (env : FileEnv) (filename : String) (offset : Int)
    (w h : Int) (ho : env.openOk filename = true)
    (hs : offset = 0 ∨ env.seekOk filename offset = true) :
    _openslide_jpeg_read env filename offset w h =
      { result := (jpeg_decode (env.sourceAt filename offset) false w h).result,
        err := (jpeg_decode (env.sourceAt filename offset) false w h).err,
        seekAttempted := offset != 0, seekFailed := false,
        dec := some (jpeg_decode (env.sourceAt filename offset) false w h) } := by
  have hcond : ¬(offset ≠ 0 ∧ env.seekOk filename offset = false) := by
    rcases hs with hs | hs <;> simp [hs]
  simp [_openslide_jpeg_read, ho, hcond]

theorem lookup_insert (t : List (String × associated_image)) (k : String)
    (v : associated_image) :
    g_hash_table_lookup (g_hash_table_insert t k v) k = some v := by
  simp [g_hash_table_lookup, g_hash_table_insert]

/-- C1: In RGB (non-grayscale) mode, every 32-bit value the decode
operation writes to the destination equals
`0xFF000000 ||| (red <<< 16) ||| (green <<< 8) ||| blue` for that pixel's
sample bytes — alpha forced fully opaque, byte order A, R, G, B from high
to low — and in particular its top byte (`>>> 24`) is `0xFF`. -/
theorem rgb_pixels_packed_argb (s : JpegSource) (w h : Int) (x : Nat)
    (hx : x ∈ (jpeg_decode s false w h).writes) :
    (∃ row i, x = 0xFF000000 |||
        ((s.sample false row (i * 3 + 0) % 256) <<< 16) |||
        ((s.sample false row (i * 3 + 1) % 256) <<< 8) |||
        (s.sample false row (i * 3 + 2) % 256)) ∧
    x >>> 24 = 0xFF := by
  obtain ⟨r, hr⟩ := decode_writes_mem s false w h x hx
  obtain ⟨i, hi⟩ := copyRow_rgb_mem s r x hr
  constructor
  · exact ⟨r, i, hi⟩
  · rw [hi]
    exact pack_topByte _ _ _ (Nat.mod_lt _ (by norm_num))
      (Nat.mod_lt _ (by norm_num)) (Nat.mod_lt _ (by norm_num))

/-- C1 witness: decoding the concrete 2x2 solid-red stream writes the
value `0xFFFF0000`, whose top byte is `0xFF`. -/
theorem rgb_pixels_packed_argb_witness :
    (0xFFFF0000 : Nat) ∈ (jpeg_decode demoSource false 2 2).writes ∧
    (0xFFFF0000 : Nat) >>> 24 = 0xFF :=
  ⟨by decide, (rgb_pixels_packed_argb demoSource 2 2 0xFFFF0000 (by decide)).2⟩

/-- C2: when the codec's actual output dimensions differ from the
caller-supplied expected dimensions, the decode call fails with an error
whose message contains both the expected pair and the actual pair, and
writes nothing to the destination buffer. -/
theorem dimension_mismatch_fails (s : JpegSource) (g : Bool) (w h : Int) (c : Nat)
    (hhr : s.headerRead = .code c)
    (hc : c = JPEG_HEADER_OK ∨ c = JPEG_HEADER_TABLES_ONLY)
    (hsf : s.startFail = none)
    (hmm : w ≠ (s.outputWidth : Int) ∨ h ≠ (s.outputHeight : Int)) :
    (jpeg_decode s g w h).result = false ∧
    (jpeg_decode s g w h).writes = [] ∧
    (jpeg_decode s g w h).err =
      some ⟨OPENSLIDE_ERROR,
            mismatchMessage w h (s.outputWidth : Int) (s.outputHeight : Int)⟩ ∧
    strContains (mismatchMessage w h (s.outputWidth : Int) (s.outputHeight : Int))
      (toString w ++ "x" ++ toString h) ∧
    strContains (mismatchMessage w h (s.outputWidth : Int) (s.outputHeight : Int))
      (toString (s.outputWidth : Int) ++ "x" ++ toString (s.outputHeight : Int)) := by
  rw [decode_mismatch s g w h c hhr hc hsf hmm]
  obtain ⟨h1, h2⟩ := mismatch_contains_pairs w h (s.outputWidth : Int) (s.outputHeight : Int)
  exact ⟨rfl, rfl, rfl, h1, h2⟩

/-- C2 witness: asking for 32x32 from the concrete 2x2 stream fails with a
message containing both `32x32` and `2x2`, and writes nothing. -/
theorem dimension_mismatch_fails_witness :
    (jpeg_decode demoSource false 32 32).result = false ∧
    (jpeg_decode demoSource false 32 32).writes = [] ∧
    (jpeg_decode demoSource false 32 32).err =
      some ⟨OPENSLIDE_ERROR, mismatchMessage 32 32
              ((demoSource.outputWidth : Nat) : Int)
              ((demoSource.outputHeight : Nat) : Int)⟩ ∧
    strContains (mismatchMessage 32 32 ((demoSource.outputWidth : Nat) : Int)
        ((demoSource.outputHeight : Nat) : Int))
      (toString (32 : Int) ++ "x" ++ toString (32 : Int)) ∧
    strContains (mismatchMessage 32 32 ((demoSource.outputWidth : Nat) : Int)
        ((demoSource.outputHeight : Nat) : Int))
      (toString ((demoSource.outputWidth : Nat) : Int) ++ "x" ++
        toString ((demoSource.outputHeight : Nat) : Int)) :=
  dimension_mismatch_fails demoSource false 32 32 JPEG_HEADER_OK rfl
    (Or.inl rfl) rfl (Or.inl (by decide))

/-- C3: on a valid baseline-JPEG stream, the dimension probe succeeds
returning the codec's computed output dimensions, and a decode of the same
stream called with exactly those dimensions succeeds — both operations draw
width/height from the codec's computed output dimensions for the stream. -/
theorem probe_then_decode_agree (s : JpegSource) (g : Bool) (hv : ValidSource s) :
    (jpeg_get_dimensions s).result = true ∧
    (jpeg_get_dimensions s).w = some (s.outputWidth : Int) ∧
    (jpeg_get_dimensions s).h = some (s.outputHeight : Int) ∧
    (jpeg_decode s g (s.outputWidth : Int) (s.outputHeight : Int)).result = true := by
  obtain ⟨hh, hsf, hnf, hrec⟩ := hv
  rw [probe_goodHeader s JPEG_HEADER_OK hh (Or.inl rfl)]
  refine ⟨rfl, rfl, rfl, ?_⟩
  obtain ⟨ws, hws⟩ := scanLoop_success s g hrec hnf s.outputHeight 0 (by omega)
  rw [decode_scanOk s g JPEG_HEADER_OK ws hh (Or.inl rfl) hsf hws]

/-- C3 witness: the concrete 2x2 stream is valid; its probe returns (2, 2)
and decoding it at (2, 2) succeeds. -/
theorem probe_then_decode_agree_witness :
    (jpeg_get_dimensions demoSource).result = true ∧
    (jpeg_get_dimensions demoSource).w = some ((demoSource.outputWidth : Nat) : Int) ∧
    (jpeg_get_dimensions demoSource).h = some ((demoSource.outputHeight : Nat) : Int) ∧
    (jpeg_decode demoSource false ((demoSource.outputWidth : Nat) : Int)
      ((demoSource.outputHeight : Nat) : Int)).result = true :=
  probe_then_decode_agree demoSource false ⟨rfl, rfl, rfl, by decide⟩

/-- C4: both the probe and the decode accept exactly the header outcomes
`JPEG_HEADER_OK` and `JPEG_HEADER_TABLES_ONLY`; every other header return
code makes them fail with "Couldn't read JPEG header" without proceeding
(the probe never reaches `jpeg_calc_output_dimensions`, the decode never
reaches `jpeg_start_decompress`, and nothing is written). -/
theorem header_outcomes (s : JpegSource) (c : Nat) (g : Bool) (w h : Int)
    (hhr : s.headerRead = .code c) :
    (¬(c = JPEG_HEADER_OK ∨ c = JPEG_HEADER_TABLES_ONLY) →
      jpeg_get_dimensions s =
        { result := false,
          err := some ⟨OPENSLIDE_ERROR, "Couldn\x27t read JPEG header"⟩,
          w := none, h := none, calcCalled := false, destroyOk := true,
          pendingAtDestroy := none, aborted := false } ∧
      (jpeg_decode s g w h).result = false ∧
      (jpeg_decode s g w h).err =
        some ⟨OPENSLIDE_ERROR, "Couldn\x27t read JPEG header"⟩ ∧
      (jpeg_decode s g w h).startCalled = false ∧
      (jpeg_decode s g w h).writes = []) ∧
    ((c = JPEG_HEADER_OK ∨ c = JPEG_HEADER_TABLES_ONLY) →
      (jpeg_get_dimensions s).calcCalled = true ∧
      (jpeg_decode s g w h).startCalled = true) := by
  constructor
  · intro hc
    push_neg at hc
    rw [probe_badHeader s c hhr hc, decode_badHeader s g w h c hhr hc]
    exact ⟨rfl, rfl, rfl, rfl, rfl⟩
  · intro hc
    rw [probe_goodHeader s c hhr hc]
    refine ⟨rfl, ?_⟩
    cases hs : s.startFail with
    | some m =>
      rw [decode_startFail s g w h c m hhr hc hs]
    | none =>
      by_cases hmm : w ≠ (s.outputWidth : Int) ∨ h ≠ (s.outputHeight : Int)
      · rw [decode_mismatch s g w h c hhr hc hs hmm]
      · push_neg at hmm
        obtain ⟨hw, hh2⟩ := hmm
        subst hw
        subst hh2
        cases hsl : scanLoop s g 0 s.outputHeight with
        | none => rw [decode_hang s g c hhr hc hs hsl]
        | some p =>
          obtain ⟨ws, f⟩ := p
          cases f with
          | none => rw [decode_scanOk s g c ws hhr hc hs hsl]
          | some m => rw [decode_scanFail s g c ws m hhr hc hs hsl]

/-- C4 witness: a `JPEG_SUSPENDED` header read makes the probe fail with
"Couldn't read JPEG header"; an accepted header read reaches
`jpeg_calc_output_dimensions` and `jpeg_start_decompress`. -/
theorem header_outcomes_witness :
    (jpeg_get_dimensions demoBadSource).result = false ∧
    (jpeg_get_dimensions demoBadSource).err =
      some ⟨OPENSLIDE_ERROR, "Couldn\x27t read JPEG header"⟩ ∧
    (jpeg_decode demoBadSource false 2 2).startCalled = false ∧
    (jpeg_get_dimensions demoSource).calcCalled = true ∧
    (jpeg_decode demoSource false 2 2).startCalled = true := by
  have h1 := (header_outcomes demoBadSource JPEG_SUSPENDED false 2 2 rfl).1 (by decide)
  have h2 := (header_outcomes demoSource JPEG_HEADER_OK false 2 2 rfl).2 (Or.inl rfl)
  refine ⟨?_, ?_, h1.2.2.2.1, h2.1, h2.2⟩
  · rw [h1.1]
  · rw [h1.1]

/-- C5: `my_emit_message` escalates every codec warning (negative message
level) to the fatal-error path — exactly the `error_exit` capture-and-jump
handling, so decoding never continues past a warning — and ignores
non-negative (trace) message levels. -/
theorem warnings_escalated (m : openslide_jpeg_error_mgr) (l : Int) (f : String) :
    (l < 0 → my_emit_message m l f = (my_error_exit m f, true)) ∧
    (0 ≤ l → my_emit_message m l f = (m, false)) := by
  constructor
  · intro hl
    simp [my_emit_message, hl]
  · intro hl
    have hl2 : ¬l < 0 := by omega
    simp [my_emit_message, hl2]

/-- C5 witness: message level `-1` escalates to the fatal path; message
level `0` is ignored. -/
theorem warnings_escalated_witness :
    my_emit_message ⟨true, none⟩ (-1) "corrupt data" =
      (my_error_exit ⟨true, none⟩ "corrupt data", true) ∧
    my_emit_message ⟨true, none⟩ 0 "trace" = (⟨true, none⟩, false) :=
  ⟨(warnings_escalated ⟨true, none⟩ (-1) "corrupt data").1 (by decide),
   (warnings_escalated ⟨true, none⟩ 0 "trace").2 (by decide)⟩

/-- C6: the error bridge stores at most one pending error (an `Option`);
`_openslide_jpeg_propagate_error` first asserts the installed handler is
`my_error_exit` (any other handler trips the assertion), then moves the
pending error out exactly once and resets the stored error to empty — a
second propagation delivers nothing. -/
theorem propagate_error_once (m : openslide_jpeg_error_mgr) :
    (m.error_exit_is_mine = false → _openslide_jpeg_propagate_error m = none) ∧
    (m.error_exit_is_mine = true →
      _openslide_jpeg_propagate_error m = some (m.err, { m with err := none }) ∧
      _openslide_jpeg_propagate_error { m with err := none } =
        some (none, { m with err := none })) := by
  constructor
  · intro hm
    simp [_openslide_jpeg_propagate_error, hm]
  · intro hm
    constructor
    · simp [_openslide_jpeg_propagate_error, hm]
    · simp [_openslide_jpeg_propagate_error, hm]

/-- C6 witness: a bridge holding one pending error propagates it out and is
left empty; propagating again delivers nothing; a foreign handler trips the
assertion. -/
theorem propagate_error_once_witness :
    _openslide_jpeg_propagate_error ⟨true, some ⟨OPENSLIDE_ERROR, "boom"⟩⟩ =
      some (some ⟨OPENSLIDE_ERROR, "boom"⟩, ⟨true, none⟩) ∧
    _openslide_jpeg_propagate_error ⟨true, none⟩ = some (none, ⟨true, none⟩) ∧
    _openslide_jpeg_propagate_error ⟨false, some ⟨OPENSLIDE_ERROR, "boom"⟩⟩ = none := by
  have h1 := (propagate_error_once ⟨true, some ⟨OPENSLIDE_ERROR, "boom"⟩⟩).2 rfl
  have h2 := (propagate_error_once ⟨false, some ⟨OPENSLIDE_ERROR, "boom"⟩⟩).1 rfl
  exact ⟨h1.1, h1.2, h2⟩

/-- C7: on every exit path of the probe and of the decode (success,
recoverable failure, or the longjmp recovery path), the decompression
session is destroyed with the error bridge's pending error already empty:
the destroy-time assertions pass, and the propagate-time assertion never
aborts.  (The decode's scanline loop failing to terminate — only possible
if the codec reported a zero recommended batch height — is the one case
with no exit path at all.) -/
theorem session_destroyed_clean (s : JpegSource) (g : Bool) (w h : Int) :
    (jpeg_get_dimensions s).destroyOk = true ∧
    (jpeg_get_dimensions s).pendingAtDestroy = none ∧
    (jpeg_get_dimensions s).aborted = false ∧
    ((jpeg_decode s g w h).hang = false →
      (jpeg_decode s g w h).destroyOk = true ∧
      (jpeg_decode s g w h).pendingAtDestroy = none ∧
      (jpeg_decode s g w h).aborted = false) := by
  refine ⟨?_, ?_, ?_, decode_clean s g w h⟩ <;>
    rcases probe_cases s with ⟨_, hp⟩ | ⟨_, e, hp⟩ <;> rw [hp]

/-- C7 witness: on the concrete 2x2 stream, both probe and decode destroy
the session with no pending error. -/
theorem session_destroyed_clean_witness :
    (jpeg_get_dimensions demoSource).destroyOk = true ∧
    (jpeg_get_dimensions demoSource).pendingAtDestroy = none ∧
    (jpeg_decode demoSource false 2 2).destroyOk = true ∧
    (jpeg_decode demoSource false 2 2).pendingAtDestroy = none := by
  have h := session_destroyed_clean demoSource false 2 2
  have h2 := h.2.2.2 (by decide)
  exact ⟨h.1, h.2.1, h2.1, h2.2.1⟩

/-- C8: the dimension probe reports failure exactly when an error occurred;
on failure the out-parameters `w`/`h` are left unwritten, and on success
they carry the codec's computed output width and height. -/
theorem probe_out_params (s : JpegSource) :
    ((jpeg_get_dimensions s).result = false ↔ (jpeg_get_dimensions s).err ≠ none) ∧
    ((jpeg_get_dimensions s).result = false →
      (jpeg_get_dimensions s).w = none ∧ (jpeg_get_dimensions s).h = none) ∧
    ((jpeg_get_dimensions s).result = true →
      (jpeg_get_dimensions s).w = some (s.outputWidth : Int) ∧
      (jpeg_get_dimensions s).h = some (s.outputHeight : Int)) := by
  rcases probe_cases s with ⟨_, hp⟩ | ⟨_, e, hp⟩ <;> rw [hp] <;> simp

/-- C8 witness: the suspended-header stream fails with an error and leaves
`w`/`h` unwritten; the valid 2x2 stream succeeds with `w = h = 2`. -/
theorem probe_out_params_witness :
    (jpeg_get_dimensions demoBadSource).err ≠ none ∧
    (jpeg_get_dimensions demoBadSource).w = none ∧
    (jpeg_get_dimensions demoSource).w = some ((demoSource.outputWidth : Nat) : Int) ∧
    (jpeg_get_dimensions demoSource).h = some ((demoSource.outputHeight : Nat) : Int) := by
  have h1 := (probe_out_params demoBadSource).1.mp (by decide)
  have h2 := (probe_out_params demoBadSource).2.1 (by decide)
  have h3 := (probe_out_params demoSource).2.2 (by decide)
  exact ⟨h1, h2.1, h3.1, h3.2⟩

/-- C9: registering an associated image probes the source eagerly; if the
probe fails, registration fails with the probe's error prefixed by
`"Can't read <name> associated image: "` and inserts nothing; if it
succeeds, an entry is inserted (and retrievable) under the given name
carrying exactly the probed width/height and the given filename and
offset. -/
theorem associated_image_registration (env : FileEnv)
    (table : List (String × associated_image)) (name filename : String)
    (offset : Int) :
    ((_openslide_jpeg_read_dimensions env filename offset).result = false →
      (_openslide_jpeg_add_associated_image env table name filename offset).result = false ∧
      (_openslide_jpeg_add_associated_image env table name filename offset).err =
        g_prefix_error (_openslide_jpeg_read_dimensions env filename offset).err
          ("Can\x27t read " ++ name ++ " associated image: ") ∧
      (_openslide_jpeg_add_associated_image env table name filename offset).table = table) ∧
    ((_openslide_jpeg_read_dimensions env filename offset).result = true →
      (_openslide_jpeg_add_associated_image env table name filename offset).result = true ∧
      (_openslide_jpeg_add_associated_image env table name filename offset).err = none ∧
      (_openslide_jpeg_add_associated_image env table name filename offset).table =
        g_hash_table_insert table name
          ⟨((env.sourceAt filename offset).outputWidth : Int),
           ((env.sourceAt filename offset).outputHeight : Int), filename, offset⟩ ∧
      g_hash_table_lookup
        (_openslide_jpeg_add_associated_image env table name filename offset).table
        name =
        some ⟨((env.sourceAt filename offset).outputWidth : Int),
              ((env.sourceAt filename offset).outputHeight : Int), filename, offset⟩) := by
  constructor
  · intro hd
    simp [_openslide_jpeg_add_associated_image, hd]
  · intro hd
    cases ho : env.openOk filename with
    | false =>
      rw [read_dims_openFail env filename offset ho] at hd
      simp at hd
    | true =>
      by_cases hseek : offset ≠ 0 ∧ env.seekOk filename offset = false
      · rw [read_dims_seekFail env filename offset ho hseek.1 hseek.2] at hd
        simp at hd
      · have hs : offset = 0 ∨ env.seekOk filename offset = true := by
          by_cases h0 : offset = 0
          · exact Or.inl h0
          · cases hb : env.seekOk filename offset with
            | false => exact absurd ⟨h0, hb⟩ hseek
            | true => exact Or.inr rfl
        rw [read_dims_probe env filename offset ho hs] at hd
        simp only at hd
        rcases probe_cases (env.sourceAt filename offset) with ⟨_, hp⟩ | ⟨hres, e, hp⟩
        · have hmain :
              _openslide_jpeg_add_associated_image env table name filename offset =
              { result := true, err := none,
                table := g_hash_table_insert table name
                  ⟨((env.sourceAt filename offset).outputWidth : Int),
                   ((env.sourceAt filename offset).outputHeight : Int),
                   filename, offset⟩ } := by
            simp [_openslide_jpeg_add_associated_image,
                  read_dims_probe env filename offset ho hs, hp]
          rw [hmain]
          exact ⟨rfl, rfl, rfl, lookup_insert table name _⟩
        · rw [hp] at hd
          simp at hd

/-- C9 witness: with every file operation succeeding and the stream being
the concrete 2x2 source, registration under "thumbnail" succeeds and the
entry carries (2, 2), the filename, and the offset. -/
theorem associated_image_registration_witness :
    (_openslide_jpeg_add_associated_image demoEnvOk [] "thumbnail" "slide.tif" 4096).result
      = true ∧
    g_hash_table_lookup
      (_openslide_jpeg_add_associated_image demoEnvOk [] "thumbnail" "slide.tif" 4096).table
      "thumbnail" =
      some ⟨(((demoEnvOk.sourceAt "slide.tif" 4096).outputWidth : Nat) : Int),
            (((demoEnvOk.sourceAt "slide.tif" 4096).outputHeight : Nat) : Int),
            "slide.tif", 4096⟩ := by
  have h := (associated_image_registration demoEnvOk [] "thumbnail" "slide.tif" 4096).2
    (by decide)
  exact ⟨h.1, h.2.2.2⟩

/-- C10: with byte offset zero, the file-based probe and decode perform no
seek at all, so the "Cannot seek to offset" IO error can only arise for a
nonzero offset; for a nonzero offset whose seek fails, that IO error is
returned and the operation stops before any codec work.  (The hypothesis
separates the file-open collaborator's own error, which is a different
message, from the seek error.) -/
theorem seek_only_nonzero_offset (env : FileEnv) (filename : String)
    (offset : Int) (wExp hExp : Int)
    (hopen : env.openErr filename ≠ seekError) :
    ((_openslide_jpeg_read_dimensions env filename 0).seekAttempted = false ∧
     (_openslide_jpeg_read env filename 0 wExp hExp).seekAttempted = false) ∧
    ((_openslide_jpeg_read_dimensions env filename offset).err = some seekError →
      offset ≠ 0) ∧
    ((_openslide_jpeg_read env filename offset wExp hExp).err = some seekError →
      offset ≠ 0) ∧
    (offset ≠ 0 → env.openOk filename = true →
      env.seekOk filename offset = false →
      (_openslide_jpeg_read_dimensions env filename offset).result = false ∧
      (_openslide_jpeg_read_dimensions env filename offset).err = some seekError ∧
      (_openslide_jpeg_read_dimensions env filename offset).probe = none ∧
      (_openslide_jpeg_read env filename offset wExp hExp).result = false ∧
      (_openslide_jpeg_read env filename offset wExp hExp).err = some seekError ∧
      (_openslide_jpeg_read env filename offset wExp hExp).dec = none) := by
  refine ⟨?_, ?_, ?_, ?_⟩
  · cases ho : env.openOk filename with
    | false =>
      rw [read_dims_openFail env filename 0 ho,
          file_read_openFail env filename 0 wExp hExp ho]
      exact ⟨rfl, rfl⟩
    | true =>
      rw [read_dims_probe env filename 0 ho (Or.inl rfl),
          file_read_decode env filename 0 wExp hExp ho (Or.inl rfl)]
      exact ⟨rfl, rfl⟩
  · intro he h0
    subst h0
    cases ho : env.openOk filename with
    | false =>
      rw [read_dims_openFail env filename 0 ho] at he
      simp only at he
      exact hopen (Option.some.inj he)
    | true =>
      rw [read_dims_probe env filename 0 ho (Or.inl rfl)] at he
      simp only at he
      have := probe_err_domain _ _ he
      simp [seekError, G_FILE_ERROR, OPENSLIDE_ERROR] at this
  · intro he h0
    subst h0
    cases ho : env.openOk filename with
    | false =>
      rw [file_read_openFail env filename 0 wExp hExp ho] at he
      simp only at he
      exact hopen (Option.some.inj he)
    | true =>
      rw [file_read_decode env filename 0 wExp hExp ho (Or.inl rfl)] at he
      simp only at he
      have := decode_err_domain _ _ _ _ _ he
      simp [seekError, G_FILE_ERROR, OPENSLIDE_ERROR] at this
  · intro h0 ho hsk
    rw [read_dims_seekFail env filename offset ho h0 hsk,
        file_read_seekFail env filename offset wExp hExp ho h0 hsk]
    exact ⟨rfl, rfl, rfl, rfl, rfl, rfl⟩

/-- C10 witness: on a concrete environment whose seeks all fail, offset 0
performs no seek, while offset 4096 returns the seek IO error without
entering the codec. -/
theorem seek_only_nonzero_offset_witness :
    (_openslide_jpeg_read_dimensions demoEnv "slide.tif" 0).seekAttempted = false ∧
    (_openslide_jpeg_read demoEnv "slide.tif" 0 64 64).seekAttempted = false ∧
    (_openslide_jpeg_read_dimensions demoEnv "slide.tif" 4096).err = some seekError ∧
    (_openslide_jpeg_read_dimensions demoEnv "slide.tif" 4096).probe = none ∧
    (_openslide_jpeg_read demoEnv "slide.tif" 4096 64 64).err = some seekError ∧
    (_openslide_jpeg_read demoEnv "slide.tif" 4096 64 64).dec = none := by
  have h := seek_only_nonzero_offset demoEnv "slide.tif" 4096 64 64 (by decide)
  have h4 := h.2.2.2 (by decide) rfl rfl
  exact ⟨h.1.1, h.1.2, h4.2.1, h4.2.2.1, h4.2.2.2.2.1, h4.2.2.2.2.2⟩
